import Mathlib

/-!
Shallow embedding of `custom-logger.js` (a Node.js system monitor).

The program has one source file defining two classes, `SystemLogger`
(append-only timestamped log file plus synchronous event-emitter
listeners) and `SystemMonitor` (metric collection, threshold alerts,
and a report generator over the log file).  Pure computations are
embedded as Lean functions; the log file is an explicit `String`
threaded through the operations; JavaScript numbers that hold byte or
tick counts are `Nat`, percentages and other fractional values are `Rat`
(`toFixed(2)` followed by `parseFloat` is modelled as rounding to a
multiple of 1/100); a JavaScript `TypeError` is an `Except` error.
-/

/-- The `type` tag of a log entry: `"INFO"`, `"WARN"` or `"ERROR"`. -/
inductive Level where
  | INFO
  | WARN
  | ERROR
deriving DecidableEq, Repr

/-- The string written between brackets in a log line. -/
def Level.tag : Level → String
  | .INFO => "INFO"
  | .WARN => "WARN"
  | .ERROR => "ERROR"

/-- Errors a modelled JavaScript computation can raise.  `typeError` is the
`TypeError` raised by calling a method on `undefined`; `listenerError` stands
for an arbitrary exception thrown by a registered event listener. -/
inductive JsError where
  | typeError
  | listenerError
deriving DecidableEq, Repr

/-- `parseFloat(x.toFixed(2))`: round a number to two decimal places.
Ties are not distinguished by the behaviour this development relies on. -/
def round2 (q : ℚ) : ℚ := (round (q * 100) : ℚ) / 100

/-- Which alert fired.  The source logs a message string interpolating the
percentage; the embedding keeps the alert's identity (which branch of
`checkAlerts` emitted it) and its level, which is all the report/alert
claims depend on. -/
inductive AlertKind where
  | memCritical
  | memWarning
  | cpuCritical
  | cpuWarning
deriving DecidableEq, Repr

/-- First `if / else if` block of `SystemMonitor.checkAlerts`: the memory
branch.  `memory.usedPercent > 85` logs an ERROR-level CRITICAL alert,
otherwise `> 70` logs a WARN-level WARNING alert. -/
def memAlerts (usedPercent : ℚ) : List (Level × AlertKind) :=
  if usedPercent > 85 then [(.ERROR, .memCritical)]
  else if usedPercent > 70 then [(.WARN, .memWarning)]
  else []

/-- Second `if / else if` block of `SystemMonitor.checkAlerts`: the CPU
branch.  `cpu.usagePercent > 80` logs an ERROR-level CRITICAL alert,
otherwise `> 60` logs a WARN-level WARNING alert. -/
def cpuAlerts (usagePercent : ℚ) : List (Level × AlertKind) :=
  if usagePercent > 80 then [(.ERROR, .cpuCritical)]
  else if usagePercent > 60 then [(.WARN, .cpuWarning)]
  else []

/-- `SystemMonitor.checkAlerts(memory, cpu)`: runs the memory block, then
the CPU block; the alerts logged are those of the two blocks in order. -/
def checkAlerts (memUsedPercent cpuUsagePercent : ℚ) : List (Level × AlertKind) :=
  memAlerts memUsedPercent ++ cpuAlerts cpuUsagePercent

/-- C1: the alert evaluator emits an ERROR-level CRITICAL memory alert
exactly when memoryPercent > 85, a WARN-level WARNING memory alert exactly
when 70 < memoryPercent ≤ 85, an ERROR-level CRITICAL CPU alert exactly
when cpuPercent > 80, and a WARN-level WARNING CPU alert exactly when
60 < cpuPercent ≤ 80; the two checks are independent (the result is the
memory block's alerts followed by the CPU block's alerts), and the
thresholds are strict, so memoryPercent = 70 with cpuPercent = 60
produces no alert. -/
theorem checkAlerts_thresholds (m c : ℚ) :
    ((Level.ERROR, AlertKind.memCritical) ∈ checkAlerts m c ↔ 85 < m) ∧
    ((Level.WARN, AlertKind.memWarning) ∈ checkAlerts m c ↔ 70 < m ∧ m ≤ 85) ∧
    ((Level.ERROR, AlertKind.cpuCritical) ∈ checkAlerts m c ↔ 80 < c) ∧
    ((Level.WARN, AlertKind.cpuWarning) ∈ checkAlerts m c ↔ 60 < c ∧ c ≤ 80) ∧
    checkAlerts m c = memAlerts m ++ cpuAlerts c ∧
    checkAlerts 70 60 = [] := by
  refine ⟨?_, ?_, ?_, ?_, rfl, by norm_num [checkAlerts, memAlerts, cpuAlerts]⟩ <;>
    · unfold checkAlerts memAlerts cpuAlerts
      split_ifs <;> simp_all

/-- JavaScript `content.split("\n")` at the character level: split a
character list at every newline.  Like the JavaScript method, an empty
input yields one empty piece and a trailing newline yields a trailing
empty piece. -/
def splitNl : List Char → List (List Char)
  | [] => [[]]
  | c :: cs =>
    if c = '\n' then [] :: splitNl cs
    else
      match splitNl cs with
      | [] => [[c]]
      | h :: t => (c :: h) :: t

/-- `content.split("\n")` on strings. -/
def jsSplitLines (s : String) : List String :=
  (splitNl s.data).map String.mk

/-- `line.trim()` is falsy exactly when every character of the line is
whitespace (the log lines are ASCII, so the JavaScript and Lean
whitespace classes agree on them). -/
def isBlankLine (l : String) : Bool :=
  l.data.all Char.isWhitespace

/-- `content.split("\n").filter(line => line.trim())`: the non-blank
lines of the file, in order, untrimmed. -/
def nonBlankLines (s : String) : List String :=
  (jsSplitLines s).filter fun l => !isBlankLine l

/-- `line.split(" ")[0]`: the prefix of the line up to (excluding) the
first space character. -/
def firstToken (l : String) : String :=
  String.mk (l.data.takeWhile fun c => c ≠ ' ')

/-- Does the first list occur at the head of the second? -/
def startsWithChars : List Char → List Char → Bool
  | [], _ => true
  | _ :: _, [] => false
  | c :: cs, d :: ds => c = d && startsWithChars cs ds

/-- JavaScript `hay.includes(needle)` at the character level. -/
def listIncludes (needle : List Char) : List Char → Bool
  | [] => startsWithChars needle []
  | c :: cs => startsWithChars needle (c :: cs) || listIncludes needle cs

/-- JavaScript `s.includes(needle)`. -/
def jsIncludes (needle s : String) : Bool :=
  listIncludes needle.data s.data

/-- The sentinel returned by `generateReport` when there is no log data. -/
def noDataMsg : String := "No log data available"

/-- The bordered report block, with the five computed values spliced in
where the source's template literal interpolates them. -/
def reportTemplate (totalEntries errors warnings : ℕ) (startTime endTime : String) : String :=
  "\n===============================\n  SYSTEM MONITOR REPORT\n===============================\nTotal Log Entries: "
    ++ toString totalEntries
    ++ "\nErrors: " ++ toString errors
    ++ "\nWarnings: " ++ toString warnings
    ++ "\nStart Time: " ++ startTime
    ++ "\nEnd Time: " ++ endTime
    ++ "\n===============================\n"

/-- `SystemMonitor.generateReport()`.  The argument is the log file's
content (`none` when `fs.existsSync` is false).  The file is split on
newlines and blank lines are dropped; with no line left the sentinel is
returned.  `lines[lines.length - 2]` is modelled with integer indexing:
when the index is negative (exactly one line) the access yields
`undefined` and the subsequent `.split(" ")` raises a `TypeError`. -/
def generateReport (content : Option String) : Except JsError String :=
  match content with
  | none => Except.ok noDataMsg
  | some c =>
    if (nonBlankLines c).length = 0 then Except.ok noDataMsg
    else
      match (if (0 : ℤ) ≤ ((nonBlankLines c).length : ℤ) - 2 then
          (nonBlankLines c)[(((nonBlankLines c).length : ℤ) - 2).toNat]? else none) with
      | none => Except.error JsError.typeError
      | some endLine =>
        Except.ok (reportTemplate (nonBlankLines c).length
          ((nonBlankLines c).filter fun l => jsIncludes "[ERROR]" l).length
          ((nonBlankLines c).filter fun l => jsIncludes "[WARN]" l).length
          (firstToken ((nonBlankLines c).headD ""))
          (firstToken endLine))

/-- The report block always begins with a newline and a border, so it can
never coincide with the no-data sentinel. -/
theorem reportTemplate_ne_noDataMsg (a b c : ℕ) (d e : String) :
    reportTemplate a b c d e ≠ noDataMsg := by
  intro h
  have hlen := congrArg String.length h
  simp only [reportTemplate, String.length_append] at hlen
  have h1 : ("\n===============================\n  SYSTEM MONITOR REPORT\n===============================\nTotal Log Entries: " : String).length = 108 := rfl
  have h2 : (noDataMsg : String).length = 21 := rfl
  omega

/-- With at least two non-blank lines the index `lines.length - 2` is in
range, so the report branch is taken. -/
theorem generateReport_of_two_le (c : String) (h2 : 2 ≤ (nonBlankLines c).length) :
    generateReport (some c) = Except.ok (reportTemplate
      (nonBlankLines c).length
      ((nonBlankLines c).filter fun l => jsIncludes "[ERROR]" l).length
      ((nonBlankLines c).filter fun l => jsIncludes "[WARN]" l).length
      (firstToken ((nonBlankLines c).headD ""))
      (firstToken ((nonBlankLines c).getD ((nonBlankLines c).length - 2) ""))) := by
  have h0 : ¬ (nonBlankLines c).length = 0 := by omega
  have hnn : (0 : ℤ) ≤ ((nonBlankLines c).length : ℤ) - 2 := by
    omega
  have htn : ((((nonBlankLines c).length : ℤ) - 2)).toNat = (nonBlankLines c).length - 2 := by
    omega
  have hlt : (nonBlankLines c).length - 2 < (nonBlankLines c).length := by omega
  simp only [generateReport]
  rw [if_neg h0, if_pos hnn, htn, List.getElem?_eq_getElem hlt]
  rw [List.getD_eq_getElem _ _ hlt]

/-- With exactly one non-blank line, `lines.length - 2` is `-1`, the
access yields `undefined`, and `.split(" ")` raises a `TypeError`. -/
theorem generateReport_of_one (c : String) (h1 : (nonBlankLines c).length = 1) :
    generateReport (some c) = Except.error JsError.typeError := by
  have h0 : ¬ (nonBlankLines c).length = 0 := by omega
  have hneg : ¬ (0 : ℤ) ≤ ((nonBlankLines c).length : ℤ) - 2 := by
    rw [h1]
    norm_num
  simp only [generateReport]
  rw [if_neg h0, if_neg hneg]

/-- C5: `generateReport` returns the literal sentinel `"No log data
available"` if and only if the log file is absent or has no non-blank
line; with exactly one non-blank line it raises instead, and with two or
more it returns the report block, which is never the sentinel. -/
theorem generateReport_noData_iff (content : Option String) :
    generateReport content = Except.ok noDataMsg ↔
      content = none ∨ ∃ c, content = some c ∧ nonBlankLines c = [] := by
  cases content with
  | none => simp [generateReport]
  | some c =>
    rcases h : (nonBlankLines c).length with _ | n
    · have hc : nonBlankLines c = [] := List.length_eq_zero.mp h
      simp [generateReport, hc]
    · rcases n with _ | n
      · rw [generateReport_of_one c h]
        simp only [reduceCtorEq, false_iff]
        rintro (hn | ⟨c', hc', hnil⟩)
        · exact absurd hn (by simp)
        · rw [Option.some.injEq] at hc'
          subst hc'
          rw [hnil] at h
          simp at h
      · rw [generateReport_of_two_le c (by omega)]
        simp only [Except.ok.injEq, reportTemplate_ne_noDataMsg, false_iff]
        rintro (hn | ⟨c', hc', hnil⟩)
        · exact absurd hn (by simp)
        · rw [Option.some.injEq] at hc'
          subst hc'
          rw [hnil] at h
          simp at h

/-- C2 (amended): for a log file with at least two non-blank lines,
`generateReport` returns the bordered block embedding the number of
non-blank lines, the counts of lines containing the substrings
`"[ERROR]"` and `"[WARN]"`, the first space-delimited token of the first
non-blank line, and the first space-delimited token of the second-to-last
non-blank line. -/
theorem generateReport_stats (c : String) (h2 : 2 ≤ (nonBlankLines c).length) :
    ∃ endLine, (nonBlankLines c)[(nonBlankLines c).length - 2]? = some endLine ∧
      generateReport (some c) = Except.ok (reportTemplate
        (nonBlankLines c).length
        ((nonBlankLines c).filter fun l => jsIncludes "[ERROR]" l).length
        ((nonBlankLines c).filter fun l => jsIncludes "[WARN]" l).length
        (firstToken ((nonBlankLines c).headD ""))
        (firstToken endLine)) := by
  have hlt : (nonBlankLines c).length - 2 < (nonBlankLines c).length := by omega
  refine ⟨(nonBlankLines c).getD ((nonBlankLines c).length - 2) "", ?_, ?_⟩
  · rw [List.getElem?_eq_getElem hlt, List.getD_eq_getElem _ _ hlt]
  · exact generateReport_of_two_le c h2

/-- C2, counterexample to the original claim: a log file whose content is
a single non-blank line (here one well-formed log entry) makes
`generateReport` raise a `TypeError` instead of returning a report
block. -/
theorem generateReport_one_line_fails :
    generateReport (some "2025-01-01T00:00:00.000Z [INFO] only line") =
        Except.error JsError.typeError ∧
      (nonBlankLines "2025-01-01T00:00:00.000Z [INFO] only line").length = 1 := by
  constructor <;> rfl

/-- C2, witness: a two-line log file where the computed report block is
reached; the second-to-last line is the first line. -/
theorem generateReport_stats_witness :
    2 ≤ (nonBlankLines "a x\nb y\n").length ∧
      (∃ endLine, (nonBlankLines "a x\nb y\n")[(nonBlankLines "a x\nb y\n").length - 2]? = some endLine ∧
        generateReport (some "a x\nb y\n") = Except.ok (reportTemplate
          (nonBlankLines "a x\nb y\n").length
          ((nonBlankLines "a x\nb y\n").filter fun l => jsIncludes "[ERROR]" l).length
          ((nonBlankLines "a x\nb y\n").filter fun l => jsIncludes "[WARN]" l).length
          (firstToken ((nonBlankLines "a x\nb y\n").headD ""))
          (firstToken endLine))) :=
  ⟨by decide, generateReport_stats "a x\nb y\n" (by decide)⟩

/-- C10: with exactly one non-blank line `generateReport` raises a
`TypeError` (in the source, `lines[-1]` is `undefined` and
`undefined.split` throws); with zero or at least two non-blank lines it
returns normally. -/
theorem generateReport_total_iff_not_one (c : String) :
    ((nonBlankLines c).length = 1 →
        generateReport (some c) = Except.error JsError.typeError) ∧
      ((nonBlankLines c).length ≠ 1 → ∃ s, generateReport (some c) = Except.ok s) := by
  constructor
  · exact generateReport_of_one c
  · intro hne
    rcases h : (nonBlankLines c).length with _ | n
    · have hc : nonBlankLines c = [] := List.length_eq_zero.mp h
      exact ⟨noDataMsg, by simp [generateReport, hc]⟩
    · rcases n with _ | n
      · exact absurd h hne
      · exact ⟨_, generateReport_of_two_le c (by omega)⟩

/-- C10, witness: a concrete one-line file raises, and a concrete
two-line file returns normally. -/
theorem generateReport_total_iff_not_one_witness :
    generateReport (some "xy") = Except.error JsError.typeError ∧
      ∃ s, generateReport (some "p q\nr s") = Except.ok s :=
  ⟨(generateReport_total_iff_not_one "xy").1 (by decide),
   (generateReport_total_iff_not_one "p q\nr s").2 (by decide)⟩

/-- The unit array of `SystemMonitor.formatBytes`. -/
def sizes : List String := ["Bytes", "KB", "MB", "GB", "TB"]

/-- `Math.floor(Math.log(bytes) / Math.log(1024))`: the base-1024
logarithm of the byte count, rounded down. -/
def unitIndex (bytes : ℕ) : ℕ := Nat.log 1024 bytes

/-- Decimal rendering of a non-negative value given in hundredths, as
JavaScript prints `parseFloat(x.toFixed(2))`: trailing zeros of the two
decimal places are dropped. -/
def renderCenti (n : ℕ) : String :=
  if n % 100 = 0 then toString (n / 100)
  else if n % 10 = 0 then toString (n / 100) ++ "." ++ toString (n / 10 % 10)
  else toString (n / 100) ++ "." ++ (if n % 100 < 10 then "0" else "") ++ toString (n % 100)

/-- `SystemMonitor.formatBytes(bytes)`.  Zero is special-cased; otherwise
the value is scaled by `1024 ^ unitIndex bytes`, rounded to two decimals
and suffixed with `sizes[i]`.  When the index runs past the end of the
array the JavaScript access is `undefined`, which string concatenation
renders as `"undefined"`; `List.getD` with that default models it. -/
def formatBytes (bytes : ℕ) : String :=
  if bytes = 0 then "0 Bytes"
  else
    renderCenti (round ((bytes : ℚ) / 1024 ^ unitIndex bytes * 100)).toNat
      ++ " " ++ sizes.getD (unitIndex bytes) "undefined"

/-- C3 (amended to byte counts below `1024 ^ 5`, past which the unit
array is over-run): `formatBytes 0` is the literal `"0 Bytes"`,
`formatBytes 1024 = "1 KB"`, `formatBytes 1536 = "1.5 KB"`; for every
`0 < b < 1024 ^ 5` the rendered unit is drawn from the array at
`unitIndex b`, which is the largest index whose base-1024 scaling leaves
a value of at least 1, the rendered value is that scaling rounded to two
decimals, and the selected unit index is monotone in the byte count. -/
theorem formatBytes_spec :
    formatBytes 0 = "0 Bytes" ∧
    formatBytes 1024 = "1 KB" ∧
    formatBytes 1536 = "1.5 KB" ∧
    (∀ b : ℕ, 0 < b → b < 1024 ^ 5 →
      (∃ u, sizes[unitIndex b]? = some u ∧
        formatBytes b = renderCenti (round ((b : ℚ) / 1024 ^ unitIndex b * 100)).toNat ++ " " ++ u) ∧
      1 ≤ (b : ℚ) / 1024 ^ unitIndex b ∧
      (∀ j : ℕ, j < sizes.length → 1 ≤ (b : ℚ) / 1024 ^ j → j ≤ unitIndex b)) ∧
    (∀ b₁ b₂ : ℕ, b₁ ≤ b₂ → unitIndex b₁ ≤ unitIndex b₂) := by
  refine ⟨rfl, ?_, ?_, ?_, fun b₁ b₂ h => Nat.log_mono_right h⟩
  · have h1 : unitIndex 1024 = 1 := Nat.log_eq_of_pow_le_of_lt_pow (by norm_num) (by norm_num)
    have e : ((1024 : ℕ) : ℚ) / 1024 ^ (1 : ℕ) * 100 = 100 := by norm_num
    simp only [formatBytes, if_neg (by norm_num : ¬(1024 = 0)), h1, e]
    have hr : (round (100 : ℚ)).toNat = 100 := by norm_num [round_eq]; rfl
    rw [hr]
    rfl
  · have h1 : unitIndex 1536 = 1 := Nat.log_eq_of_pow_le_of_lt_pow (by norm_num) (by norm_num)
    have e : ((1536 : ℕ) : ℚ) / 1024 ^ (1 : ℕ) * 100 = 150 := by norm_num
    simp only [formatBytes, if_neg (by norm_num : ¬(1536 = 0)), h1, e]
    have hr : (round (150 : ℚ)).toNat = 150 := by norm_num [round_eq]; rfl
    rw [hr]
    rfl
  · intro b hbpos hblt
    have hb0 : b ≠ 0 := by omega
    have hlog : unitIndex b < 5 := Nat.log_lt_of_lt_pow hb0 hblt
    have hle : (1024 : ℕ) ^ unitIndex b ≤ b := Nat.pow_log_le_self 1024 hb0
    have hppos : (0 : ℚ) < 1024 ^ unitIndex b := by positivity
    refine ⟨⟨sizes.getD (unitIndex b) "undefined", ?_, ?_⟩, ?_, ?_⟩
    · have hlen : unitIndex b < sizes.length := by simpa [sizes] using hlog
      rw [List.getElem?_eq_getElem hlen, List.getD_eq_getElem _ _ hlen]
    · simp only [formatBytes, if_neg hb0]
    · rw [one_le_div hppos]
      exact_mod_cast hle
    · intro j hj hdiv
      rw [one_le_div (by positivity)] at hdiv
      have hjn : (1024 : ℕ) ^ j ≤ b := by exact_mod_cast hdiv
      exact (Nat.pow_le_iff_le_log (by norm_num) hb0).mp hjn

/-- C3, counterexample to the original claim: at one pebibyte the index
is 5, past the end of the unit array, so the rendered unit is the
JavaScript `"undefined"`, which is not one of the five listed units. -/
theorem formatBytes_petabyte_overflow :
    formatBytes (1024 ^ 5) = "1 undefined" ∧ "undefined" ∉ sizes := by
  constructor
  · have h5 : unitIndex (1024 ^ 5) = 5 := Nat.log_pow (by norm_num) 5
    have e : (((1024 : ℕ) ^ 5 : ℕ) : ℚ) / 1024 ^ (5 : ℕ) * 100 = 100 := by
      push_cast
      norm_num
    simp only [formatBytes, if_neg (by norm_num : ¬(1024 ^ 5 = 0)), h5, e]
    have hr : (round (100 : ℚ)).toNat = 100 := by norm_num [round_eq]; rfl
    rw [hr]
    rfl
  · decide

/-- C3, witness: the general clause applied at 3 bytes, the maximality
clause applied at index 0, and monotonicity applied at 2 ≤ 5. -/
theorem formatBytes_spec_witness :
    (∃ u, sizes[unitIndex 3]? = some u ∧
      formatBytes 3 = renderCenti (round ((3 : ℚ) / 1024 ^ unitIndex 3 * 100)).toNat ++ " " ++ u) ∧
    1 ≤ (3 : ℚ) / 1024 ^ unitIndex 3 ∧
    (0 : ℕ) ≤ unitIndex 3 ∧
    unitIndex 2 ≤ unitIndex 5 :=
  ⟨(formatBytes_spec.2.2.2.1 3 (by norm_num) (by norm_num)).1,
   (formatBytes_spec.2.2.2.1 3 (by norm_num) (by norm_num)).2.1,
   (formatBytes_spec.2.2.2.1 3 (by norm_num) (by norm_num)).2.2 0 (by norm_num [sizes])
     (by norm_num),
   formatBytes_spec.2.2.2.2 2 5 (by norm_num)⟩

/-- A call into the logger: `log` with an explicit level, `log` with the
level argument omitted (defaulted to `"INFO"`), or one of the three
convenience wrappers `info` / `warn` / `error`. -/
inductive Call where
  | log (msg : String) (type : Level)
  | logDefault (msg : String)
  | info (msg : String)
  | warn (msg : String)
  | error (msg : String)

/-- The level tag each kind of call passes to `log`. -/
def Call.level : Call → Level
  | .log _ t => t
  | .logDefault _ => .INFO
  | .info _ => .INFO
  | .warn _ => .WARN
  | .error _ => .ERROR

/-- The message each kind of call passes to `log`. -/
def Call.message : Call → String
  | .log m _ => m
  | .logDefault m => m
  | .info m => m
  | .warn m => m
  | .error m => m

/-- The text of one log entry before its newline:
`timestamp + " [" + type + "] " + message`. -/
def logEntryLine (ts : String) (type : Level) (msg : String) : String :=
  ts ++ " [" ++ type.tag ++ "] " ++ msg

/-- `fs.appendFileSync(logFile, logEntry)`: one call to `log` appends the
formatted entry and a newline to the file. -/
def appendLog (file ts : String) (c : Call) : String :=
  file ++ (logEntryLine ts c.level c.message ++ "\n")

/-- A sequence of logger calls, each with the timestamp `new Date()
.toISOString()` produced at that call, run against a starting file. -/
def runLogger (file : String) (calls : List (String × Call)) : String :=
  calls.foldl (fun f tc => appendLog f tc.1 tc.2) file

/-- Shape of `Date.prototype.toISOString` output: `d` stands for a
decimal digit, every other character is itself. -/
def isoPattern : String := "dddd-dd-ddTdd:dd:dd.dddZ"

/-- Match a character list against a shape pattern. -/
def matchesShape : List Char → List Char → Bool
  | [], [] => true
  | p :: ps, c :: cs => (if p = 'd' then c.isDigit else c = p) && matchesShape ps cs
  | _, _ => false

/-- The timestamp strings the runtime supplies: ISO-8601 UTC with
millisecond precision, e.g. `2025-01-01T12:00:00.000Z`. -/
def isIso8601Ms (s : String) : Bool :=
  matchesShape isoPattern.data s.data

theorem splitNl_ne_nil (cs : List Char) : splitNl cs ≠ [] := by
  induction cs with
  | nil => simp [splitNl]
  | cons c cs ih =>
    rw [splitNl]
    split
    · simp
    · rcases h : splitNl cs with _ | ⟨hd, tl⟩
      · exact absurd h ih
      · simp [h]

theorem splitNl_line_cons (l rest : List Char) (hl : '\n' ∉ l) :
    splitNl (l ++ '\n' :: rest) = l :: splitNl rest := by
  induction l with
  | nil => simp [splitNl]
  | cons c cs ih =>
    have hc : ¬ (c = '\n') := fun h => hl (h ▸ List.mem_cons_self c cs)
    have hcs : '\n' ∉ cs := fun h => hl (List.mem_cons_of_mem c h)
    rw [List.cons_append, splitNl, if_neg hc, ih hcs]

theorem string_mk_data (s : String) : String.mk s.data = s := by
  cases s
  rfl

/-- Appending one newline-free line and a newline to the front of a file
prepends exactly that line to the non-blank line list. -/
theorem nonBlankLines_line_cons (l rest : String) (hl : '\n' ∉ l.data)
    (hb : isBlankLine l = false) :
    nonBlankLines ((l ++ "\n") ++ rest) = l :: nonBlankLines rest := by
  unfold nonBlankLines jsSplitLines
  have hdata : ((l ++ "\n") ++ rest).data = l.data ++ '\n' :: rest.data := by
    simp [String.data_append]
  rw [hdata, splitNl_line_cons _ _ hl]
  simp [string_mk_data, hb]

/-- Every character matched by a shape is a digit or occurs in the
pattern itself. -/
theorem matchesShape_chars (ps cs : List Char) (h : matchesShape ps cs = true) :
    ∀ c ∈ cs, c.isDigit = true ∨ c ∈ ps := by
  induction ps generalizing cs with
  | nil =>
    cases cs with
    | nil => intro c hc; simp at hc
    | cons d ds => simp [matchesShape] at h
  | cons p ps ih =>
    cases cs with
    | nil => simp [matchesShape] at h
    | cons d ds =>
      rw [matchesShape, Bool.and_eq_true] at h
      intro c hc
      rcases List.mem_cons.mp hc with rfl | hc'
      · by_cases hp : p = 'd'
        · rw [hp, if_pos rfl] at h
          exact Or.inl h.1
        · rw [if_neg hp] at h
          have : c = p := by simpa using h.1
          exact Or.inr (this ▸ List.mem_cons_self p ps)
      · rcases ih ds h.2 c hc' with hd | hm
        · exact Or.inl hd
        · exact Or.inr (List.mem_cons_of_mem p hm)

/-- ISO timestamps contain no newline. -/
theorem iso_no_newline (s : String) (h : isIso8601Ms s = true) : '\n' ∉ s.data := by
  intro hmem
  rcases matchesShape_chars isoPattern.data s.data h '\n' hmem with hd | hp
  · exact absurd hd (by decide)
  · exact absurd hp (by decide)

/-- The level tag contains no newline. -/
theorem tag_no_newline (t : Level) : '\n' ∉ t.tag.data := by
  cases t <;> decide

/-- A formatted entry line built from a newline-free timestamp and
message contains no newline. -/
theorem logEntryLine_no_newline (ts : String) (t : Level) (msg : String)
    (hts : '\n' ∉ ts.data) (hmsg : '\n' ∉ msg.data) :
    '\n' ∉ (logEntryLine ts t msg).data := by
  simp only [logEntryLine, String.data_append, List.mem_append]
  rintro ((((h | h) | h) | h) | h)
  · exact hts h
  · exact absurd h (by decide)
  · exact tag_no_newline t h
  · exact absurd h (by decide)
  · exact hmsg h

/-- A formatted entry line is never blank: it contains `[`. -/
theorem logEntryLine_not_blank (ts : String) (t : Level) (msg : String) :
    isBlankLine (logEntryLine ts t msg) = false := by
  rw [isBlankLine, List.all_eq_false]
  refine ⟨'[', ?_, by decide⟩
  simp [logEntryLine, String.data_append]

theorem runLogger_cons (file : String) (tc : String × Call) (calls : List (String × Call)) :
    runLogger file (tc :: calls) = runLogger (appendLog file tc.1 tc.2) calls := rfl

theorem runLogger_shift (calls : List (String × Call)) (file : String) :
    runLogger file calls = file ++ runLogger "" calls := by
  induction calls generalizing file with
  | nil =>
    show file = file ++ ""
    exact (String.ext (by simp [String.data_append])).symm
  | cons tc cs ih =>
    rw [runLogger_cons, runLogger_cons, ih (appendLog file tc.1 tc.2),
      ih (appendLog "" tc.1 tc.2)]
    apply String.ext
    simp [appendLog, String.data_append]

/-- Running the logger from an empty file, with newline-free timestamps
and messages, leaves exactly the formatted entry lines as the file's
non-blank lines, in call order. -/
theorem nonBlankLines_runLogger (calls : List (String × Call))
    (h : ∀ tc ∈ calls, '\n' ∉ tc.1.data ∧ '\n' ∉ tc.2.message.data) :
    nonBlankLines (runLogger "" calls) =
      calls.map fun tc => logEntryLine tc.1 tc.2.level tc.2.message := by
  induction calls with
  | nil => rfl
  | cons tc cs ih =>
    have htc := h tc (List.mem_cons_self tc cs)
    have hcs : ∀ p ∈ cs, '\n' ∉ p.1.data ∧ '\n' ∉ p.2.message.data :=
      fun p hp => h p (List.mem_cons_of_mem tc hp)
    have hline := logEntryLine_no_newline tc.1 tc.2.level tc.2.message htc.1 htc.2
    rw [runLogger_cons, runLogger_shift]
    have hfile : appendLog "" tc.1 tc.2 =
        logEntryLine tc.1 tc.2.level tc.2.message ++ "\n" := by
      apply String.ext
      simp [appendLog, String.data_append]
    rw [hfile, nonBlankLines_line_cons _ _ hline
      (logEntryLine_not_blank tc.1 tc.2.level tc.2.message), ih hcs, List.map_cons]

/-- C6: starting from an empty log file, after any sequence of calls to
`log` and its wrappers (with the runtime-supplied ISO-8601 millisecond
timestamps, and messages that do not themselves contain newlines), the
file holds exactly one non-empty line per call, in call order, each of
the form `<ISO8601-ms-timestamp> [<LEVEL>] <message>` followed by a
newline, where the level is the one passed (`INFO` for `info`, `WARN`
for `warn`, `ERROR` for `error`, and `INFO` when the argument is
omitted). -/
theorem runLogger_invariant (calls : List (String × Call))
    (hts : ∀ tc ∈ calls, isIso8601Ms tc.1 = true)
    (hmsg : ∀ tc ∈ calls, '\n' ∉ tc.2.message.data) :
    nonBlankLines (runLogger "" calls) =
        (calls.map fun tc => logEntryLine tc.1 tc.2.level tc.2.message) ∧
      (nonBlankLines (runLogger "" calls)).length = calls.length ∧
      (∀ l ∈ nonBlankLines (runLogger "" calls), ∃ ts t msg,
        isIso8601Ms ts = true ∧ l = logEntryLine ts t msg) ∧
      (∀ m, (Call.logDefault m).level = Level.INFO) ∧
      (∀ m, (Call.info m).level = Level.INFO) ∧
      (∀ m, (Call.warn m).level = Level.WARN) ∧
      (∀ m, (Call.error m).level = Level.ERROR) := by
  have hmain := nonBlankLines_runLogger calls fun tc h =>
    ⟨iso_no_newline tc.1 (hts tc h), hmsg tc h⟩
  refine ⟨hmain, by rw [hmain, List.length_map], ?_,
    fun m => rfl, fun m => rfl, fun m => rfl, fun m => rfl⟩
  intro l hl
  rw [hmain] at hl
  rcases List.mem_map.mp hl with ⟨tc, htc, rfl⟩
  exact ⟨tc.1, tc.2.level, tc.2.message, hts tc htc, rfl⟩

/-- C6, witness: an `info` call and an `error` call with concrete
timestamps leave exactly the two formatted lines in the file. -/
theorem runLogger_invariant_witness :
    nonBlankLines (runLogger "" [("2025-01-01T00:00:00.000Z", Call.info "tick"),
        ("2025-01-01T00:00:01.000Z", Call.error "boom")]) =
      ([("2025-01-01T00:00:00.000Z", Call.info "tick"),
        ("2025-01-01T00:00:01.000Z", Call.error "boom")].map
          fun tc => logEntryLine tc.1 tc.2.level tc.2.message) ∧
    (nonBlankLines (runLogger "" [("2025-01-01T00:00:00.000Z", Call.info "tick"),
        ("2025-01-01T00:00:01.000Z", Call.error "boom")])).length =
      ([("2025-01-01T00:00:00.000Z", Call.info "tick"),
        ("2025-01-01T00:00:01.000Z", Call.error "boom")] : List (String × Call)).length :=
  ⟨(runLogger_invariant _ (by decide) (by decide)).1,
   (runLogger_invariant _ (by decide) (by decide)).2.1⟩

/-- The mutable fields of `SystemMonitor` that the lifecycle methods
touch: the `monitoring` flag and whether the recurring timer is armed
(`monitorInterval` holding a live interval). -/
structure MonitorState where
  monitoring : Bool
  timerArmed : Bool
deriving DecidableEq, Repr

/-- `SystemMonitor.startMonitoring`: returns unchanged when already
monitoring; otherwise sets the flag, logs an INFO start line, and arms
the timer. -/
def startMonitoring (p : MonitorState × String) (ts : String) : MonitorState × String :=
  if p.1.monitoring then p
  else (⟨true, true⟩, appendLog p.2 ts (Call.info "System monitoring started"))

/-- `SystemMonitor.stopMonitoring`: returns unchanged when not
monitoring; otherwise clears the interval, resets the flag, and logs an
INFO stop line. -/
def stopMonitoring (p : MonitorState × String) (ts : String) : MonitorState × String :=
  if !p.1.monitoring then p
  else (⟨false, false⟩, appendLog p.2 ts (Call.info "System monitoring stopped"))

/-- C7: calling `stopMonitoring` twice leaves state and log identical to
calling it once; from Idle it is a no-op (no line, no error); from
Running it disarms the timer, leaves the Idle state and appends exactly
one INFO stop line; and `startMonitoring` from Running is a no-op. -/
theorem stopMonitoring_idempotent (p : MonitorState × String) (ts ts' : String) :
    stopMonitoring (stopMonitoring p ts) ts' = stopMonitoring p ts ∧
    (p.1.monitoring = false → stopMonitoring p ts = p) ∧
    (p.1.monitoring = true →
      (stopMonitoring p ts).1 = ⟨false, false⟩ ∧
      (stopMonitoring p ts).2 = appendLog p.2 ts (Call.info "System monitoring stopped") ∧
      (Call.info "System monitoring stopped").level = Level.INFO) ∧
    (p.1.monitoring = true → startMonitoring p ts = p) := by
  obtain ⟨⟨mon, timer⟩, file⟩ := p
  cases mon <;> simp [stopMonitoring, startMonitoring, Call.level]

/-- C7, witness: one concrete stop from Running reaches Idle with the
stop line, and a stop from Idle is the identity. -/
theorem stopMonitoring_idempotent_witness :
    ((stopMonitoring ((⟨true, true⟩ : MonitorState), "") "t").1 =
        (⟨false, false⟩ : MonitorState)) ∧
      stopMonitoring ((⟨false, false⟩ : MonitorState), "f") "t" =
        ((⟨false, false⟩ : MonitorState), "f") :=
  ⟨((stopMonitoring_idempotent ((⟨true, true⟩ : MonitorState), "") "t" "t").2.2.1 rfl).1,
   (stopMonitoring_idempotent ((⟨false, false⟩ : MonitorState), "f") "t" "t").2.1 rfl⟩

/-- The structured entry handed to each `"logged"` listener. -/
structure LogEntry where
  timestamp : String
  type : Level
  message : String

/-- `EventEmitter.emit("logged", entry)`: listeners are invoked in
registration order; a listener that throws aborts the remaining
listeners and its exception propagates out of `emit`. -/
def emitLogged (listeners : List (LogEntry → Except JsError Unit)) (e : LogEntry) :
    Except JsError Unit :=
  match listeners with
  | [] => Except.ok ()
  | f :: fs =>
    match f e with
    | Except.ok _ => emitLogged fs e
    | Except.error err => Except.error err

/-- `SystemLogger.log(message, type)`: format the entry, append it to the
file, then emit `"logged"`.  The result pairs the new file content with
the outcome `log` itself has: `ok` when every listener returned, or the
first listener exception, which `emit` re-throws to `log`'s caller. -/
def SystemLogger.log (file : String) (listeners : List (LogEntry → Except JsError Unit))
    (ts msg : String) (type : Level) : String × Except JsError Unit :=
  (file ++ (logEntryLine ts type msg ++ "\n"),
   emitLogged listeners { timestamp := ts, type := type, message := msg })

/-- C4 (amended): the append happens before listener notification and is
never prevented by a listener failure — the resulting file always ends
with the new entry, whatever the listeners do — but an exception thrown
by a listener propagates out of `log` to its caller rather than being
swallowed. -/
theorem log_appends_before_notify (file : String)
    (listeners : List (LogEntry → Except JsError Unit)) (ts msg : String) (type : Level) :
    (SystemLogger.log file listeners ts msg type).1 =
        file ++ (logEntryLine ts type msg ++ "\n") ∧
      ∀ err, emitLogged listeners ⟨ts, type, msg⟩ = Except.error err →
        (SystemLogger.log file listeners ts msg type).1 =
            file ++ (logEntryLine ts type msg ++ "\n") ∧
          (SystemLogger.log file listeners ts msg type).2 = Except.error err :=
  ⟨rfl, fun _ h => ⟨rfl, h⟩⟩

/-- C4, witness: with a single throwing listener the entry is still
appended and the exception is the result `log` hands its caller. -/
theorem log_appends_before_notify_witness :
    (SystemLogger.log "f" [fun _ => Except.error JsError.listenerError] "t" "m"
          Level.WARN).1 = "f" ++ (logEntryLine "t" Level.WARN "m" ++ "\n") ∧
      (SystemLogger.log "f" [fun _ => Except.error JsError.listenerError] "t" "m"
          Level.WARN).2 = Except.error JsError.listenerError :=
  (log_appends_before_notify "f" [fun _ => Except.error JsError.listenerError] "t" "m"
    Level.WARN).2 JsError.listenerError rfl

/-- C4, counterexample to the original claim: a throwing listener makes
`log` itself finish with that exception — it is re-thrown into the
caller's control flow — even though the append already happened. -/
theorem log_listener_error_propagates :
    (SystemLogger.log "" [fun _ => Except.error JsError.listenerError]
          "2025-01-01T00:00:00.000Z" "hello" Level.INFO).2 =
        Except.error JsError.listenerError ∧
      (SystemLogger.log "" [fun _ => Except.error JsError.listenerError]
          "2025-01-01T00:00:00.000Z" "hello" Level.INFO).1 =
        "" ++ (logEntryLine "2025-01-01T00:00:00.000Z" Level.INFO "hello" ++ "\n") :=
  ⟨rfl, rfl⟩

/-- The record `SystemMonitor.getMemoryInfo` returns. -/
structure MemoryInfo where
  total : ℕ
  free : ℕ
  used : ℕ
  usedPercent : ℚ
  totalFormatted : String
  freeFormatted : String
  usedFormatted : String

/-- `SystemMonitor.getMemoryInfo()`, parameterised by the OS readings
`os.totalmem()` and `os.freemem()`.  The collector has no conditional
and no error path: it is a total function of the two readings. -/
def getMemoryInfo (total free : ℕ) : MemoryInfo :=
  { total := total
    free := free
    used := total - free
    usedPercent := round2 (((total - free : ℕ) : ℚ) / total * 100)
    totalFormatted := formatBytes total
    freeFormatted := formatBytes free
    usedFormatted := formatBytes (total - free) }

/-- C8: for OS-reported readings (free at most total, total positive) the
snapshot satisfies used = total − free and usedPercent =
100·used/total rounded to two decimals, and it echoes the readings. -/
theorem getMemoryInfo_spec (total free : ℕ) (hf : free ≤ total) (ht : 0 < total) :
    (getMemoryInfo total free).used + free = total ∧
      ((getMemoryInfo total free).used : ℚ) = (total : ℚ) - free ∧
      (getMemoryInfo total free).usedPercent =
        round2 (100 * ((total : ℚ) - free) / total) ∧
      (getMemoryInfo total free).total = total ∧
      (getMemoryInfo total free).free = free := by
  refine ⟨Nat.sub_add_cancel hf, ?_, ?_, rfl, rfl⟩
  · simp [getMemoryInfo, Nat.cast_sub hf]
  · simp only [getMemoryInfo, round2, Nat.cast_sub hf]
    congr 1
    ring_nf

/-- C8, witness: total 100, free 25. -/
theorem getMemoryInfo_spec_witness :
    (getMemoryInfo 100 25).used + 25 = 100 ∧
      ((getMemoryInfo 100 25).used : ℚ) = (100 : ℚ) - 25 ∧
      (getMemoryInfo 100 25).usedPercent = round2 (100 * ((100 : ℚ) - 25) / 100) ∧
      (getMemoryInfo 100 25).total = 100 ∧
      (getMemoryInfo 100 25).free = 25 :=
  getMemoryInfo_spec 100 25 (by norm_num) (by norm_num)

/-- One entry of `os.cpus()[i].times`: cumulative milliseconds per tick
category since boot. -/
structure CpuTimes where
  user : ℕ
  nice : ℕ
  sys : ℕ
  idle : ℕ
  irq : ℕ

/-- The `for (const type in cpu.times)` accumulation for one core: every
category is added to the running total. -/
def CpuTimes.allTicks (t : CpuTimes) : ℕ :=
  t.user + t.nice + t.sys + t.idle + t.irq

/-- One entry of `os.cpus()`: the model string and the tick counters. -/
structure CpuCore where
  model : String
  times : CpuTimes

/-- `totalIdle` accumulated over all cores. -/
def totalIdle (cpus : List CpuCore) : ℕ :=
  (cpus.map fun c => c.times.idle).sum

/-- `totalTick` accumulated over all cores. -/
def totalTick (cpus : List CpuCore) : ℕ :=
  (cpus.map fun c => c.times.allTicks).sum

/-- `SystemMonitor.getCPUUsage()`: one instantaneous read of the
cumulative counters, `1 - totalIdle / totalTick`.  The single `cpus`
argument is the one snapshot read; no second time-separated read
exists. -/
def getCPUUsage (cpus : List CpuCore) : ℚ :=
  1 - (totalIdle cpus : ℚ) / totalTick cpus

/-- The record `SystemMonitor.getCPUInfo` returns. -/
structure CPUInfo where
  cores : ℕ
  model : String
  loadAverage : List ℚ
  usagePercent : ℚ

/-- `SystemMonitor.getCPUInfo()`, parameterised by `os.cpus()` and
`os.loadavg()`.  `cpus[0]?.model || "Unknown"` falls back to the
sentinel when there is no first core or its model string is empty (the
empty string is falsy). -/
def getCPUInfo (cpus : List CpuCore) (loadavg : List ℚ) : CPUInfo :=
  { cores := cpus.length
    model :=
      match cpus.head? with
      | none => "Unknown"
      | some c => if c.model = "" then "Unknown" else c.model
    loadAverage := loadavg.map round2
    usagePercent := round2 (getCPUUsage cpus * 100) }

/-- C9: usagePercent is 100·(1 − Σ idle / Σ all ticks) rounded to two
decimals, computed from the single snapshot read; the model falls back
to the sentinel `"Unknown"` when no per-core model is available (no
cores, or an empty model string). -/
theorem getCPUInfo_spec (cpus : List CpuCore) (loadavg : List ℚ)
    (h : 0 < totalTick cpus) :
    (getCPUInfo cpus loadavg).usagePercent =
        round2 (100 * (1 - (totalIdle cpus : ℚ) / (totalTick cpus : ℚ))) ∧
      (cpus = [] → (getCPUInfo cpus loadavg).model = "Unknown") ∧
      (∀ c rest, cpus = c :: rest → c.model = "" →
        (getCPUInfo cpus loadavg).model = "Unknown") ∧
      (getCPUInfo cpus loadavg).cores = cpus.length := by
  refine ⟨?_, ?_, ?_, rfl⟩
  · simp only [getCPUInfo, getCPUUsage, round2]
    congr 1
    ring_nf
  · intro hc
    subst hc
    rfl
  · intro c rest hc hm
    subst hc
    simp [getCPUInfo, hm]

/-- C9, witness: one core with empty model string, 1 idle tick out of 2,
empty load-average list. -/
theorem getCPUInfo_spec_witness :
    (getCPUInfo [⟨"", ⟨1, 0, 0, 1, 0⟩⟩] []).usagePercent =
        round2 (100 * (1 - (totalIdle [⟨"", ⟨1, 0, 0, 1, 0⟩⟩] : ℚ) /
          (totalTick [⟨"", ⟨1, 0, 0, 1, 0⟩⟩] : ℚ))) ∧
      (getCPUInfo [⟨"", ⟨1, 0, 0, 1, 0⟩⟩] []).model = "Unknown" ∧
      (getCPUInfo [⟨"", ⟨1, 0, 0, 1, 0⟩⟩] []).cores = 1 :=
  ⟨(getCPUInfo_spec [⟨"", ⟨1, 0, 0, 1, 0⟩⟩] [] (by decide)).1,
   (getCPUInfo_spec [⟨"", ⟨1, 0, 0, 1, 0⟩⟩] [] (by decide)).2.2.1 ⟨"", ⟨1, 0, 0, 1, 0⟩⟩ []
     rfl rfl,
   (getCPUInfo_spec [⟨"", ⟨1, 0, 0, 1, 0⟩⟩] [] (by decide)).2.2.2⟩
